import Mathlib

/-!
# Shallow embedding of the GAZE-RECORDER-REACT core

This file embeds, in Lean 4, the UI-independent logic of the repository:

* `GazeRecorder` — `src/src/GazeRecorder.jsx`: CSV field escaping and file
  encoding, the 9-point calibration grid and its click state machine, the
  fixed-rate gaze sampler tick, the gaze-listener update of the
  last-known-gaze slot, and the sampler period computation.
* `App` — the application component (`src/unnamed/part_000`): its own copies
  of `csvEscape` and `downloadCsv` (the latter computes a union header).
* `UseAudioRecorder` — `src/unnamed/part_004` (`useAudioRecorder` hook):
  `startRecording` and the `onerror` handler of the media recorder.

JavaScript numbers are modelled as `JSNum` (a rational, `NaN`, an infinity,
or `undefined`) where finiteness matters, and as plain rationals `ℚ` where
the code only ever manipulates finite values.  JS `Math.round(x)` is
`⌊x + 1/2⌋`.  Side-effecting browser calls (DOM hit tests, `performance.now`,
`crypto.randomUUID`, `getUserMedia`) are inputs supplied by environment
records, and the CSV download functions return the text that would be written
(`none` when the code returns without writing a file).
-/

namespace GazeRec

/-- A JavaScript number-ish value: a finite number (modelled as a rational),
`NaN`, `±Infinity`, or `undefined` (a missing field read coerces to a
non-finite value under `isFinite`). -/
inductive JSNum where
  | fin (q : ℚ)
  | nan
  | posInf
  | negInf
  | undef
deriving DecidableEq

/-- JS global `isFinite`: true exactly on finite numbers. -/
def JSNum.isFinite : JSNum → Bool
  | .fin _ => true
  | _ => false

/-- The rational value of a finite `JSNum`; junk value `0` on non-finite
inputs (the embedded code only applies this where the finiteness invariant
holds). -/
def JSNum.toRat : JSNum → ℚ
  | .fin q => q
  | _ => 0

/-- JS `Math.round`: round half toward positive infinity, `⌊x + 1/2⌋`
(exact on the finite rational values the embedded code produces). -/
def jsRound (q : ℚ) : Int := ⌊q + 1 / 2⌋

namespace GazeRecorder

/-- `clamp` from `GazeRecorder.jsx`: `Math.max(lo, Math.min(hi, n))`. -/
def clamp (n lo hi : ℚ) : ℚ := max lo (min hi n)

/-- The constant string produced by the template literal on line 14 of
`GazeRecorder.jsx`.  That template writes a backslash before the dollar of
its interpolation, which in JavaScript suppresses the interpolation, so the
template evaluates to this fixed 26-character text — a double quote, a
dollar, an opening brace, the raw source text of the replace call, a closing
brace and a double quote — for every input.  Spelled out character by
character because it mixes quotes, apostrophes and braces. -/
def templateLiteralText : String :=
  String.mk ['"', '$', '\x7b', 's', '.', 'r', 'e', 'p', 'l', 'a', 'c', 'e',
             '(', '/', '"', '/', 'g', ',', ' ', '\'', '"', '"', '\'', ')', '\x7d', '"']

/-- `csvEscape` from `GazeRecorder.jsx`.  The argument is the JS value's
string form: `none` for `null`/`undefined` (`v == null`), `some s` for a
value whose `String(v)` is `s`.  The regex test `/[,"\n]/.test(s)` is the
character scan.  The returned template literal escapes its interpolation
(backslash before the dollar), so the quoting branch returns the constant
`templateLiteralText`, not a quoted version of `s`. -/
def csvEscape (v : Option String) : String :=
  match v with
  | none => ""
  | some s =>
    if s.data.any (fun c => c = ',' || c = '"' || c = '\n') then templateLiteralText
    else s

end GazeRecorder

/-- A JS row object for CSV export: insertion-ordered keys, each mapped to
`none` (a `null` value) or `some s` (a value whose string form is `s`). -/
abbrev Row := List (String × Option String)

/-- `Object.keys(r)`: the keys of a row in insertion order. -/
def rowKeys (r : Row) : List String := r.map Prod.fst

/-- `r[k]`: the value at a key; `none` both when the key is missing
(`undefined`) and when it is present with a `null` value — both render as an
empty CSV field. -/
def rowGet (r : Row) (k : String) : Option String :=
  match r.find? (fun p => p.1 == k) with
  | some p => p.2
  | none => none

namespace GazeRecorder

/-- `downloadCsv` from `GazeRecorder.jsx`, as the text of the file it writes:
`none` when `rows` is empty (the function returns without writing), otherwise
the lines joined by `"\n"`.  The header is `Object.keys(rows[0])` — the keys
of the FIRST row only. -/
def downloadCsv (rows : List Row) : Option String :=
  match rows with
  | [] => none
  | r0 :: _ =>
    let header := rowKeys r0
    some (String.intercalate "\n"
      (String.intercalate "," header ::
        rows.map (fun r => String.intercalate "," (header.map (fun k => csvEscape (rowGet r k))))))

end GazeRecorder

namespace App

/-- `csvEscape` from the application component (`src/unnamed/part_000`).
Same shape as the routine in `GazeRecorder.jsx`, but here the template
literal is NOT escaped: the interpolation runs, so the quoting branch really
wraps the string in double quotes with the global single-character regex
replace `s.replace(/"/g, '""')` doubling each internal double quote
(embedded as the character-level expansion). -/
def csvEscape (v : Option String) : String :=
  match v with
  | none => ""
  | some s =>
    if s.data.any (fun c => c = ',' || c = '"' || c = '\n') then
      "\"" ++ String.mk (s.data.flatMap (fun c => if c = '"' then ['"', '"'] else [c])) ++ "\""
    else s

/-- One step of the `headerSet.add(k)` loop: a JS `Set` keeps first-insertion
order, so adding an already-present key is a no-op and a new key goes to the
end. -/
def addKey (acc : List String) (k : String) : List String :=
  if k ∈ acc then acc else acc ++ [k]

/-- `rows.forEach((r) => Object.keys(r).forEach((k) => headerSet.add(k)))`:
the union of all rows' keys in first-seen order. -/
def firstSeenKeys (rows : List Row) : List String :=
  rows.foldl (fun acc r => (rowKeys r).foldl addKey acc) []

/-- `downloadCsv` from the application component, as the text of the file it
writes (`none` when `rows` is empty).  The header is the first-seen union of
the keys of ALL rows. -/
def downloadCsv (rows : List Row) : Option String :=
  match rows with
  | [] => none
  | _ :: _ =>
    let header := firstSeenKeys rows
    some (String.intercalate "\n"
      (String.intercalate "," header ::
        rows.map (fun r => String.intercalate "," (header.map (fun k => csvEscape (rowGet r k))))))

end App

namespace GazeRecorder

/-- JS `Number.prototype.toFixed(6)` on a finite value: round to six decimal
places (ties toward positive infinity, per ECMA `toFixed`, which picks the
larger candidate) and print with exactly six fractional digits. -/
def toFixed6 (q : ℚ) : String :=
  let n : Int := ⌊q * 1000000 + 1 / 2⌋
  let m : Nat := n.natAbs
  let fracDigits := toString (m % 1000000)
  (if n < 0 then "-" else "") ++ toString (m / 1000000) ++ "." ++
    String.mk (List.replicate (6 - fracDigits.length) '0') ++ fracDigits

/-- The content context returned by `getDomContextAtPoint`: plain strings,
and bounding-box numbers that are `none` when the hit test found no element
(the code then fills `""` into those fields). -/
structure DomCtx where
  content_id : String
  content_type : String
  element_tag : String
  element_id : String
  element_class : String
  bbox_x : Option Int
  bbox_y : Option Int
  bbox_w : Option Int
  bbox_h : Option Int

/-- The value held in `lastGazeRef.current` (when not `null`): the fields of
the object `{ x: data.x, y: data.y, ts: ts ?? performance.now() }`. -/
structure GazePoint where
  x : JSNum
  y : JSNum
  ts : JSNum
deriving DecidableEq

/-- One row pushed onto `samplesRef.current` by the sampler tick.  Fields
that the code writes either as a number or as `""` are `Option Int`
(`none` renders as the empty field). -/
structure Sample where
  session_id : String
  ts_ms : Int
  gaze_x_px : Int
  gaze_y_px : Int
  gaze_x_norm : String
  gaze_y_norm : String
  scroll_y : Int
  audio_recording : Nat
  audio_segment_id : String
  audio_ts_ms : Option Int
  content_id : String
  content_type : String
  question_id : String
  element_tag : String
  element_id : String
  element_class : String
  bbox_x : Option Int
  bbox_y : Option Int
  bbox_w : Option Int
  bbox_h : Option Int

/-- The browser state a single sampler tick reads: clocks, viewport, the
refs shared with the audio effect, the DOM hit test
(`getDomContextAtPoint`, an external query, supplied as a function), and
the active question id (`getActiveQuestionId`). -/
structure TickEnv where
  now : ℚ
  innerWidth : ℚ
  innerHeight : ℚ
  scrollY : ℚ
  sessionId : String
  recordingStartTs : Option ℚ
  audioRecording : Bool
  audioSegmentId : Option String
  lastAudioTs : Option ℚ
  domCtx : ℚ → ℚ → DomCtx
  activeQuestionId : String

/-- The body of the sampler `setInterval` callback (`GazeRecorder.jsx`,
recording effect): read `lastGazeRef`; if `null`, return without appending;
otherwise clamp, hit-test, and push exactly one assembled row. -/
def samplerTick (env : TickEnv) (lastGaze : Option GazePoint) (samples : List Sample) :
    List Sample :=
  match lastGaze with
  | none => samples
  | some g =>
    let x := clamp g.x.toRat 0 env.innerWidth
    let y := clamp g.y.toRat 0 env.innerHeight
    let ctx := env.domCtx x y
    let base := env.recordingStartTs.getD 0
    samples ++ [{
      session_id := env.sessionId
      ts_ms := jsRound (env.now - base)
      gaze_x_px := jsRound x
      gaze_y_px := jsRound y
      gaze_x_norm := toFixed6 (x / env.innerWidth)
      gaze_y_norm := toFixed6 (y / env.innerHeight)
      scroll_y := jsRound env.scrollY
      audio_recording := if env.audioRecording then 1 else 0
      audio_segment_id := if env.audioRecording then env.audioSegmentId.getD "" else ""
      audio_ts_ms :=
        match env.audioRecording, env.lastAudioTs with
        | true, some t => some (jsRound (t - base))
        | _, _ => none
      content_id := ctx.content_id
      content_type := ctx.content_type
      question_id := env.activeQuestionId
      element_tag := ctx.element_tag
      element_id := ctx.element_id
      element_class := ctx.element_class
      bbox_x := ctx.bbox_x
      bbox_y := ctx.bbox_y
      bbox_w := ctx.bbox_w
      bbox_h := ctx.bbox_h }]

/-- A sequence of sampler ticks within one recording session: each tick sees
the environment and the latest-gaze slot as they are at that tick. -/
def runTicks (ticks : List (TickEnv × Option GazePoint)) (samples : List Sample) :
    List Sample :=
  ticks.foldl (fun buf t => samplerTick t.1 t.2 buf) samples

/-- The payload the external gaze engine passes to the `setGazeListener`
callback (when not `null`/`undefined`): its `x` and `y` fields, each an
arbitrary JS number-ish value. -/
structure ListenerData where
  x : JSNum
  y : JSNum
deriving DecidableEq

/-- One invocation of the `setGazeListener` callback: the `stopped` flag of
the effect closure, the `data` and `ts` arguments, and `performance.now()`
at that moment (used when `ts` is nullish). -/
structure ListenerEvent where
  stopped : Bool
  data : Option ListenerData
  ts : Option JSNum
  now : ℚ
deriving DecidableEq

/-- The `setGazeListener` callback body: keep the slot unchanged when the
effect is stopped, the payload is missing, or either coordinate fails
`isFinite`; otherwise overwrite the slot with the new point
(`ts ?? performance.now()`). -/
def gazeListenerStep (ev : ListenerEvent) (slot : Option GazePoint) : Option GazePoint :=
  if ev.stopped then slot
  else
    match ev.data with
    | none => slot
    | some d =>
      if d.x.isFinite && d.y.isFinite then
        some { x := d.x, y := d.y, ts := ev.ts.getD (JSNum.fin ev.now) }
      else slot

/-- A sequence of gaze-listener invocations applied to the slot. -/
def runListener (evs : List ListenerEvent) (slot : Option GazePoint) : Option GazePoint :=
  evs.foldl (fun s e => gazeListenerStep e s) slot

/-- `periodMs` (recording effect): `Math.max(10, Math.round(1000 / sampleHz))`. -/
def periodMs (sampleHz : ℚ) : Int := max 10 (jsRound (1000 / sampleHz))

/-- `make9PointGrid`: x positions at 10%/50%/90% of the width, y positions at
10%/50%/90% of the height, points pushed with `y` in the outer loop — three
rows of three columns. -/
def make9PointGrid (w h : ℚ) : List (Int × Int) :=
  let xs := [(0.1 : ℚ), 0.5, 0.9].map (fun p => jsRound (p * w))
  let ys := [(0.1 : ℚ), 0.5, 0.9].map (fun p => jsRound (p * h))
  ys.flatMap (fun y => xs.map (fun x => (x, y)))

/-- The slice of the `GazeRecorder` component state that the calibration
logic touches: the memoised grid and the calibration `useState` values. -/
structure RecorderUI where
  calibPts : List (Int × Int)
  calibrating : Bool
  calibIdx : Nat
  calibClicks : Nat
  status : String
deriving DecidableEq

/-- Component mount: `calibPts` is `useMemo(() => make9PointGrid(window.innerWidth,
window.innerHeight), [])` — computed once from the viewport at mount — and the
calibration `useState` initial values. -/
def mountGazeRecorder (w h : ℚ) : RecorderUI :=
  { calibPts := make9PointGrid w h
    calibrating := false
    calibIdx := 0
    calibClicks := 0
    status := "init" }

/-- `startCalibration`: sets `calibrating`, resets index and click count to 0
and the status string.  It does not touch `calibPts` (the memo has an empty
dependency list, so the grid is not recomputed here). -/
def startCalibration (s : RecorderUI) : RecorderUI :=
  { s with calibrating := true, calibIdx := 0, calibClicks := 0, status := "calibrating" }

/-- Claim-side variant written from the spec's sentence "Re-entering
calibration must recompute the grid": identical to `startCalibration` except
that it also recomputes `calibPts` from the viewport dimensions current at the
moment of the call. -/
def startCalibrationRecompute (w h : ℚ) (s : RecorderUI) : RecorderUI :=
  { s with calibPts := make9PointGrid w h, calibrating := true, calibIdx := 0,
           calibClicks := 0, status := "calibrating" }

/-- `onCalibDotClick` (state part): increment the click count; at the
configured per-point threshold advance the point index and reset the count;
past the last grid point leave calibration and set the done status. -/
def onCalibDotClick (clicksPerCalibrationPoint : Nat) (s : RecorderUI) : RecorderUI :=
  let nextClicks := s.calibClicks + 1
  if nextClicks ≥ clicksPerCalibrationPoint then
    let nextIdx := s.calibIdx + 1
    if nextIdx ≥ s.calibPts.length then
      { s with calibrating := false, calibIdx := nextIdx, calibClicks := 0,
               status := "calibration done" }
    else
      { s with calibIdx := nextIdx, calibClicks := 0 }
  else
    { s with calibClicks := nextClicks }

/-- `c` confirming clicks into a fresh calibration run started on a component
mounted with viewport `w × h`, at per-point threshold 6 (the value the app
passes for `clicksPerCalibrationPoint`). -/
def calibRun (w h : ℚ) (c : Nat) : RecorderUI :=
  (onCalibDotClick 6)^[c] (startCalibration (mountGazeRecorder w h))

end GazeRecorder

namespace UseAudioRecorder

/-- A JS exception value `e` as observed by the `catch` block of
`startRecording`: its `message` property (`none` when absent) and its string
form `String(e)`. -/
structure ErrVal where
  message : Option String
  str : String
deriving DecidableEq

/-- `String(e?.message || e)`: the `message` property when it is a non-empty
string, otherwise the string form of `e` itself. -/
def errToMsg (e : ErrVal) : String :=
  match e.message with
  | some m => if m = "" then e.str else m
  | none => e.str

/-- A `MediaRecorder` error event as observed by the `onerror` handler:
`evt?.error` may be absent, and its `message` may be absent or empty. -/
structure ErrEvt where
  error : Option ErrVal
deriving DecidableEq

/-- `evt?.error?.message || "Audio recorder error."`: the event's error
message when it is a non-empty string, otherwise the fixed fallback text. -/
def onErrorMsg (evt : Option ErrEvt) : String :=
  match evt with
  | some ev =>
    match ev.error with
    | some e =>
      match e.message with
      | some m => if m = "" then "Audio recorder error." else m
      | none => "Audio recorder error."
    | none => "Audio recorder error."
  | none => "Audio recorder error."

/-- The metadata object the caller passes to `startRecording`
(`{ question_id, session_id }` in `GazeRecorder.jsx`). -/
structure AudioMeta where
  question_id : String
  session_id : String
deriving DecidableEq

/-- A sealed recording as appended to `recordings` by the `onstop` handler
(the blob payload and object URL are browser resources outside the model). -/
structure AudioSegmentRec where
  id : String
  startTs : ℚ
  stopTs : ℚ
  durationMs : ℚ
  mimeType : String
  meta : Option AudioMeta
deriving DecidableEq

/-- The state of the `useAudioRecorder` hook: the three `useState` values and
the refs (`streamRef`, `mediaRecorderRef`, `pendingIdRef`, `pendingMetaRef`,
`startTsRef`, `chunksRef` — chunks modelled by their byte sizes). -/
structure AudioRecState where
  isRecording : Bool
  recordings : List AudioSegmentRec
  error : String
  hasStream : Bool
  hasRecorder : Bool
  pendingId : Option String
  pendingMeta : Option AudioMeta
  startTs : Option ℚ
  chunks : List Nat
deriving DecidableEq

/-- The browser-supplied outcomes a `startRecording` call can observe:
`acquireStream` is the result of `getUserMedia` plus the `MediaRecorder`
construction (an `Except` rejection models the thrown/rejected error),
`startRec` the result of `recorder.start()`, `freshId` the
`crypto.randomUUID()` value, and `now` the `performance.now()` reading. -/
structure StartEnv where
  acquireStream : Except ErrVal Unit
  startRec : Except ErrVal Unit
  freshId : String
  now : ℚ

/-- `const recordingId = id || crypto.randomUUID()`: the caller's id unless
it is JS-falsy (absent or the empty string), else a fresh UUID. -/
def recordingIdOf (id? : Option String) (env : StartEnv) : String :=
  match id? with
  | some i => if i = "" then env.freshId else i
  | none => env.freshId

/-- `startRecording({id, meta})` from `useAudioRecorder`: returns the JS
return value (`null` modelled as `none`) paired with the state after the
call.  Unsupported environments set an error and return `null`; a call while
already recording returns `pendingIdRef.current` at once; otherwise the
stream is reused or acquired, per-segment refs are initialised, and the
recorder is started — any thrown error lands in the `catch` block, which
records the message and forces `isRecording` to `false`. -/
def startRecording (isSupported : Bool) (id? : Option String) (meta? : Option AudioMeta)
    (env : StartEnv) (s : AudioRecState) : Option String × AudioRecState :=
  if ¬ isSupported then
    (none, { s with error := "Audio recording is not supported in this browser." })
  else if s.isRecording then
    (s.pendingId, s)
  else
    let s1 := { s with error := "" }
    let recordingId := recordingIdOf id? env
    match (if s1.hasStream then Except.ok () else env.acquireStream) with
    | Except.error e =>
      (none, { s1 with error := errToMsg e, isRecording := false })
    | Except.ok _ =>
      let s2 := { s1 with hasStream := true, pendingId := some recordingId,
                          pendingMeta := meta?, startTs := some env.now, chunks := [] }
      match env.startRec with
      | Except.error e =>
        (none, { s2 with error := errToMsg e, isRecording := false })
      | Except.ok _ =>
        (some recordingId, { s2 with hasRecorder := true, isRecording := true })

/-- The `recorder.onerror` handler: surface the event's message (with the
fixed fallback) and set `isRecording` to `false`. -/
def recorderOnError (evt : Option ErrEvt) (s : AudioRecState) : AudioRecState :=
  { s with error := onErrorMsg evt, isRecording := false }

end UseAudioRecorder

/-! ## Theorems -/

/-- C2: for every positive frequency `f`, the sampler tick period in
milliseconds equals `max(10, round(1000/f))`; in particular `f = 5` yields
200 ms and `f = 1000` yields 10 ms. -/
theorem periodMs_max_ten_round (f : ℚ) (hf : 0 < f) :
    GazeRecorder.periodMs f = max 10 (jsRound (1000 / f)) ∧
    GazeRecorder.periodMs 5 = 200 ∧
    GazeRecorder.periodMs 1000 = 10 := by
  refine ⟨rfl, ?_, ?_⟩ <;>
    · rw [GazeRecorder.periodMs, jsRound]
      norm_num

/-- Witness for C2: the period at the app's configured 5 Hz is 200 ms. -/
theorem periodMs_max_ten_round_witness : GazeRecorder.periodMs 5 = 200 :=
  (periodMs_max_ten_round 5 (by decide)).2.1

/-- C3 (code bug): the `GazeRecorder.jsx` `csvEscape` renders
`null`/`undefined` as the empty string and returns strings without a comma,
double quote or newline unchanged, as the claim says — but on the quoting
branch it returns the constant text of its backslash-escaped template
literal, not the quoted string with internal double quotes doubled: the
claim's own example `a,b"c` yields `templateLiteralText`, which differs from
the claimed `"a,b""c"`.  The application component's copy of `csvEscape`
does produce the claimed escape, showing the claim is the intended
behaviour and the escaped interpolation a slip. -/
theorem csvEscape_template_bug (t : String)
    (ht : t.data.any (fun c => c = ',' || c = '"' || c = '\n') = false) :
    GazeRecorder.csvEscape none = "" ∧
    GazeRecorder.csvEscape (some t) = t ∧
    GazeRecorder.csvEscape (some "a,b\"c") = GazeRecorder.templateLiteralText ∧
    GazeRecorder.templateLiteralText ≠ "\"a,b\"\"c\"" ∧
    App.csvEscape (some "a,b\"c") = "\"a,b\"\"c\"" := by
  refine ⟨rfl, ?_, by decide, by decide, by decide⟩
  simp [GazeRecorder.csvEscape, ht]

/-- Witness for C3: a string without special characters passes through
unchanged. -/
theorem csvEscape_template_bug_witness :
    GazeRecorder.csvEscape (some "ab") = "ab" :=
  (csvEscape_template_bug "ab" (by decide)).2.1

/-- C4 (code bug): the escaping routine of the gaze-sample and audio-log
exporter (`csvEscape` in `GazeRecorder.jsx`) is NOT extensionally equal to
the one of the psychometric-response and demographics exporter (`csvEscape`
in the application component).  They agree on `null`/`undefined` and on
strings without a comma, double quote or newline, but on the quoting branch
the `GazeRecorder.jsx` copy returns the constant text of its escaped
template literal while the application copy returns the properly quoted
string: at `a,b` the two disagree. -/
theorem csvEscape_copies_differ (t : String)
    (ht : t.data.any (fun c => c = ',' || c = '"' || c = '\n') = false) :
    GazeRecorder.csvEscape (some "a,b") = GazeRecorder.templateLiteralText ∧
    App.csvEscape (some "a,b") = "\"a,b\"" ∧
    GazeRecorder.csvEscape (some "a,b") ≠ App.csvEscape (some "a,b") ∧
    GazeRecorder.csvEscape none = App.csvEscape none ∧
    GazeRecorder.csvEscape (some t) = App.csvEscape (some t) := by
  refine ⟨by decide, by decide, by decide, rfl, ?_⟩
  simp [GazeRecorder.csvEscape, App.csvEscape, ht]

/-- Witness for C4: the two copies agree on a value without special
characters. -/
theorem csvEscape_copies_differ_witness :
    GazeRecorder.csvEscape (some "xy") = App.csvEscape (some "xy") :=
  (csvEscape_copies_differ "xy" (by decide)).2.2.2.2

/-- A single sampler tick grows the buffer by one row when a gaze point is
available and leaves it unchanged otherwise. -/
lemma samplerTick_length (env : GazeRecorder.TickEnv) (g : Option GazeRecorder.GazePoint)
    (buf : List GazeRecorder.Sample) :
    (GazeRecorder.samplerTick env g buf).length =
      buf.length + (if g.isSome then 1 else 0) := by
  cases g <;> simp [GazeRecorder.samplerTick]

/-- C1: a tick with an empty latest-gaze slot appends no row, a tick with a
point available appends exactly one row, and after any tick sequence the
buffer has grown by exactly the number of ticks whose slot held a point. -/
theorem sampler_one_row_per_available_tick
    (env : GazeRecorder.TickEnv) (g : GazeRecorder.GazePoint)
    (ticks : List (GazeRecorder.TickEnv × Option GazeRecorder.GazePoint))
    (samples : List GazeRecorder.Sample) :
    GazeRecorder.samplerTick env none samples = samples ∧
    (GazeRecorder.samplerTick env (some g) samples).length = samples.length + 1 ∧
    (GazeRecorder.runTicks ticks samples).length =
      samples.length + ticks.countP (fun t => t.2.isSome) := by
  refine ⟨rfl, by simp [GazeRecorder.samplerTick], ?_⟩
  induction ticks generalizing samples with
  | nil => simp [GazeRecorder.runTicks]
  | cons t ts ih =>
    have hstep : GazeRecorder.runTicks (t :: ts) samples =
        GazeRecorder.runTicks ts (GazeRecorder.samplerTick t.1 t.2 samples) := rfl
    rw [hstep, ih, samplerTick_length, List.countP_cons]
    cases h : t.2 <;> simp [h] <;> omega

/-- The listener step preserves "the slot is empty or holds finite
coordinates". -/
lemma gazeListenerStep_finite (ev : GazeRecorder.ListenerEvent)
    (slot : Option GazeRecorder.GazePoint)
    (hslot : ∀ p, slot = some p → p.x.isFinite = true ∧ p.y.isFinite = true) :
    ∀ p, GazeRecorder.gazeListenerStep ev slot = some p →
      p.x.isFinite = true ∧ p.y.isFinite = true := by
  intro p hp
  unfold GazeRecorder.gazeListenerStep at hp
  split at hp
  · exact hslot p hp
  · split at hp
    · exact hslot p hp
    · split at hp
      · rename_i d hfin
        rw [Bool.and_eq_true] at hfin
        cases hp
        exact ⟨hfin.1, hfin.2⟩
      · exact hslot p hp

/-- Iterating the listener preserves the finiteness invariant. -/
lemma runListener_finite (evs : List GazeRecorder.ListenerEvent)
    (slot : Option GazeRecorder.GazePoint)
    (hslot : ∀ p, slot = some p → p.x.isFinite = true ∧ p.y.isFinite = true) :
    ∀ p, GazeRecorder.runListener evs slot = some p →
      p.x.isFinite = true ∧ p.y.isFinite = true := by
  induction evs generalizing slot with
  | nil => exact hslot
  | cons e es ih =>
    have hstep : GazeRecorder.runListener (e :: es) slot =
        GazeRecorder.runListener es (GazeRecorder.gazeListenerStep e slot) := rfl
    rw [hstep]
    exact ih _ (gazeListenerStep_finite e slot hslot)

/-- C10: starting from the empty slot, after any sequence of gaze-listener
updates the latest-gaze slot is either empty or holds a point with both
coordinates finite; and an update whose payload is missing or has a
non-finite coordinate leaves the slot unchanged. -/
theorem lastGaze_slot_finite_or_empty
    (evs : List GazeRecorder.ListenerEvent) (p : GazeRecorder.GazePoint)
    (hp : GazeRecorder.runListener evs none = some p)
    (ev : GazeRecorder.ListenerEvent) (slot : Option GazeRecorder.GazePoint)
    (hbad : ev.data = none ∨
      ∃ d, ev.data = some d ∧ (d.x.isFinite = false ∨ d.y.isFinite = false)) :
    (p.x.isFinite = true ∧ p.y.isFinite = true) ∧
    GazeRecorder.gazeListenerStep ev slot = slot := by
  refine ⟨runListener_finite evs none (by intro q hq; cases hq) p hp, ?_⟩
  unfold GazeRecorder.gazeListenerStep
  split
  · rfl
  · rcases hbad with hnone | ⟨d, hd, hbadc⟩
    · rw [hnone]
    · rw [hd]
      have hff : (d.x.isFinite && d.y.isFinite) = false := by
        rcases hbadc with h | h <;> simp [h]
      simp [hff]

/-- Witness for C10: a finite update `(3, 4)` fills the slot with finite
coordinates, and a `NaN` update is discarded. -/
theorem lastGaze_slot_finite_or_empty_witness :
    ((GazeRecorder.GazePoint.mk (JSNum.fin 3) (JSNum.fin 4) (JSNum.fin 0)).x.isFinite = true ∧
      (GazeRecorder.GazePoint.mk (JSNum.fin 3) (JSNum.fin 4) (JSNum.fin 0)).y.isFinite = true) ∧
    GazeRecorder.gazeListenerStep
      { stopped := false, data := some { x := JSNum.nan, y := JSNum.fin 1 }, ts := none, now := 0 }
      none = none :=
  lastGaze_slot_finite_or_empty
    [{ stopped := false, data := some { x := JSNum.fin 3, y := JSNum.fin 4 }, ts := none, now := 0 }]
    (GazeRecorder.GazePoint.mk (JSNum.fin 3) (JSNum.fin 4) (JSNum.fin 0)) rfl
    { stopped := false, data := some { x := JSNum.nan, y := JSNum.fin 1 }, ts := none, now := 0 }
    none
    (Or.inr ⟨{ x := JSNum.nan, y := JSNum.fin 1 }, rfl, Or.inl rfl⟩)

/-- The calibration grid always has nine points. -/
lemma make9PointGrid_length (w h : ℚ) : (GazeRecorder.make9PointGrid w h).length = 9 := rfl

/-- Closed form of the calibration state after `c ≤ 54` confirming clicks at
threshold 6 on the 9-point grid: the point index is `c / 6`, the click count
`c % 6`, and the overlay leaves exactly at click 54. -/
lemma calibRun_closed_form (w h : ℚ) :
    ∀ c, c ≤ 54 →
      GazeRecorder.calibRun w h c =
        { calibPts := GazeRecorder.make9PointGrid w h
          calibrating := decide (c < 54)
          calibIdx := c / 6
          calibClicks := c % 6
          status := if c = 54 then "calibration done" else "calibrating" } := by
  intro c
  induction c with
  | zero => intro _; rfl
  | succ n ih =>
    intro hc
    have hn : n ≤ 54 := by omega
    have hlt : n < 54 := by omega
    have hrun : GazeRecorder.calibRun w h (n + 1) =
        GazeRecorder.onCalibDotClick 6 (GazeRecorder.calibRun w h n) := by
      simp [GazeRecorder.calibRun, Function.iterate_succ_apply']
    rw [hrun, ih hn]
    unfold GazeRecorder.onCalibDotClick
    dsimp only
    rw [make9PointGrid_length, if_neg (show ¬ n = 54 by omega)]
    split_ifs with hA hB hC1 hC2 hC3
    · have h53 : n = 53 := by omega
      subst h53
      rfl
    · exfalso; omega
    · exfalso; omega
    · simp only [GazeRecorder.RecorderUI.mk.injEq]
      exact ⟨trivial, by rw [decide_eq_decide]; omega, by omega, by omega, trivial⟩
    · exfalso; omega
    · simp only [GazeRecorder.RecorderUI.mk.injEq]
      exact ⟨trivial, by rw [decide_eq_decide]; omega, by omega, by omega, trivial⟩

/-- C6: with the 9-point grid and per-point threshold 6, after `c ≤ 54`
clicks the point index is `c / 6` (each group of 6 clicks advances it by
exactly 1, visiting every grid index in order) and the click count is
`c % 6` (reset to 0 after each group); calibration is still running exactly
while `c < 54`, so Done is reached at exactly 54 clicks; and the grid is the
fixed row-major 3×3 layout. -/
theorem calibration_done_at_54_clicks (w h : ℚ) (c : Nat) (hc : c ≤ 54) :
    ((GazeRecorder.calibRun w h c).calibIdx = c / 6 ∧
     (GazeRecorder.calibRun w h c).calibClicks = c % 6 ∧
     ((GazeRecorder.calibRun w h c).calibrating = true ↔ c < 54) ∧
     (GazeRecorder.calibRun w h c).status =
       (if c = 54 then "calibration done" else "calibrating") ∧
     (GazeRecorder.calibRun w h c).calibPts = GazeRecorder.make9PointGrid w h) ∧
    GazeRecorder.make9PointGrid w h =
      [(jsRound ((0.1 : ℚ) * w), jsRound ((0.1 : ℚ) * h)),
       (jsRound ((0.5 : ℚ) * w), jsRound ((0.1 : ℚ) * h)),
       (jsRound ((0.9 : ℚ) * w), jsRound ((0.1 : ℚ) * h)),
       (jsRound ((0.1 : ℚ) * w), jsRound ((0.5 : ℚ) * h)),
       (jsRound ((0.5 : ℚ) * w), jsRound ((0.5 : ℚ) * h)),
       (jsRound ((0.9 : ℚ) * w), jsRound ((0.5 : ℚ) * h)),
       (jsRound ((0.1 : ℚ) * w), jsRound ((0.9 : ℚ) * h)),
       (jsRound ((0.5 : ℚ) * w), jsRound ((0.9 : ℚ) * h)),
       (jsRound ((0.9 : ℚ) * w), jsRound ((0.9 : ℚ) * h))] := by
  rw [calibRun_closed_form w h c hc]
  exact ⟨⟨rfl, rfl, by simp, rfl, rfl⟩, rfl⟩

/-- Witness for C6: after exactly 54 clicks on a 1000×800 viewport the point
index has advanced past the ninth point. -/
theorem calibration_done_at_54_clicks_witness :
    (GazeRecorder.calibRun 1000 800 54).calibIdx = 54 / 6 :=
  (calibration_done_at_54_clicks 1000 800 54 (by decide)).1.1

/-- The grid of a 1000×900 viewport, evaluated. -/
lemma make9PointGrid_1000_900 :
    GazeRecorder.make9PointGrid 1000 900 =
      [(100, 90), (500, 90), (900, 90), (100, 450), (500, 450), (900, 450),
       (100, 810), (500, 810), (900, 810)] := by
  norm_num [GazeRecorder.make9PointGrid, jsRound]

/-- The grid of a 500×400 viewport, evaluated. -/
lemma make9PointGrid_500_400 :
    GazeRecorder.make9PointGrid 500 400 =
      [(50, 40), (250, 40), (450, 40), (50, 200), (250, 200), (450, 200),
       (50, 360), (250, 360), (450, 360)] := by
  norm_num [GazeRecorder.make9PointGrid, jsRound]

/-- Counterexample to C7: on a component mounted with a 1000×900 viewport,
starting calibration while the viewport is now 500×400 keeps the mount-time
grid (`useMemo` with an empty dependency list), instead of the grid the
spec's recompute-on-start behaviour would produce. -/
theorem startCalibration_stale_grid_counterexample :
    (GazeRecorder.startCalibration (GazeRecorder.mountGazeRecorder 1000 900)).calibPts =
      GazeRecorder.make9PointGrid 1000 900 ∧
    GazeRecorder.make9PointGrid 1000 900 ≠ GazeRecorder.make9PointGrid 500 400 ∧
    GazeRecorder.startCalibration (GazeRecorder.mountGazeRecorder 1000 900) ≠
      GazeRecorder.startCalibrationRecompute 500 400
        (GazeRecorder.mountGazeRecorder 1000 900) := by
  refine ⟨rfl, ?_, ?_⟩
  · rw [make9PointGrid_1000_900, make9PointGrid_500_400]
    decide
  · intro hEq
    have hPts := congrArg GazeRecorder.RecorderUI.calibPts hEq
    rw [show (GazeRecorder.startCalibration
          (GazeRecorder.mountGazeRecorder 1000 900)).calibPts =
        GazeRecorder.make9PointGrid 1000 900 from rfl,
      show (GazeRecorder.startCalibrationRecompute 500 400
          (GazeRecorder.mountGazeRecorder 1000 900)).calibPts =
        GazeRecorder.make9PointGrid 500 400 from rfl,
      make9PointGrid_1000_900, make9PointGrid_500_400] at hPts
    exact absurd hPts (by decide)

/-- C7 as amended: starting (or re-starting) calibration resets the point
index and click count to 0, sets the calibrating flag and status, and keeps
`calibPts` exactly as it was — the grid is computed from the viewport only
once, at component mount. -/
theorem startCalibration_resets_state (s : GazeRecorder.RecorderUI) (w h : ℚ) :
    GazeRecorder.startCalibration s =
      { calibPts := s.calibPts, calibrating := true, calibIdx := 0, calibClicks := 0,
        status := "calibrating" } ∧
    (GazeRecorder.mountGazeRecorder w h).calibPts = GazeRecorder.make9PointGrid w h :=
  ⟨rfl, rfl⟩

/-- A successful `startRecording` call from idle: returns the segment id;
afterwards the recorder is recording with that id pending, and the sealed
recordings list is untouched. -/
lemma startRecording_success (i : Option String) (m : Option UseAudioRecorder.AudioMeta)
    (e : UseAudioRecorder.StartEnv) (s0 : UseAudioRecorder.AudioRecState)
    (h0 : s0.isRecording = false)
    (hstream : s0.hasStream = true ∨ e.acquireStream = Except.ok ())
    (hstart : e.startRec = Except.ok ()) :
    UseAudioRecorder.startRecording true i m e s0 =
      (some (UseAudioRecorder.recordingIdOf i e),
       { s0 with error := "", hasStream := true,
                 pendingId := some (UseAudioRecorder.recordingIdOf i e),
                 pendingMeta := m, startTs := some e.now, chunks := [],
                 hasRecorder := true, isRecording := true }) := by
  unfold UseAudioRecorder.startRecording
  rcases hstream with hs | hs
  · simp [h0, hs, hstart]
  · cases hhs : s0.hasStream <;> simp [h0, hs, hstart, hhs]

/-- C8: calling `startRecording` while a recording is in progress returns the
in-progress segment's id (`pendingIdRef.current`) and leaves the state —
recordings list included — completely unchanged; in particular, after a
successful start from idle, a second start returns the same id again and
creates no second segment. -/
theorem startRecording_idempotent_while_recording
    (s s0 : UseAudioRecorder.AudioRecState) (i1 i2 : Option String)
    (m1 m2 : Option UseAudioRecorder.AudioMeta) (e1 e2 : UseAudioRecorder.StartEnv)
    (hrec : s.isRecording = true) (h0 : s0.isRecording = false)
    (hstream : s0.hasStream = true ∨ e1.acquireStream = Except.ok ())
    (hstart : e1.startRec = Except.ok ()) :
    UseAudioRecorder.startRecording true i2 m2 e2 s = (s.pendingId, s) ∧
    ∃ rid : String,
      (UseAudioRecorder.startRecording true i1 m1 e1 s0).1 = some rid ∧
      (UseAudioRecorder.startRecording true i1 m1 e1 s0).2.pendingId = some rid ∧
      (UseAudioRecorder.startRecording true i1 m1 e1 s0).2.isRecording = true ∧
      (UseAudioRecorder.startRecording true i1 m1 e1 s0).2.recordings = s0.recordings ∧
      UseAudioRecorder.startRecording true i2 m2 e2
          (UseAudioRecorder.startRecording true i1 m1 e1 s0).2 =
        (some rid, (UseAudioRecorder.startRecording true i1 m1 e1 s0).2) := by
  constructor
  · unfold UseAudioRecorder.startRecording
    simp [hrec]
  · refine ⟨UseAudioRecorder.recordingIdOf i1 e1, ?_⟩
    rw [startRecording_success i1 m1 e1 s0 h0 hstream hstart]
    refine ⟨rfl, rfl, rfl, rfl, ?_⟩
    unfold UseAudioRecorder.startRecording
    simp

/-- Witness for C8: a concrete successful start from the idle state followed
by a second start, which returns the same segment id with the state
unchanged. -/
theorem startRecording_idempotent_while_recording_witness :
    UseAudioRecorder.startRecording true none none
        { acquireStream := Except.ok (), startRec := Except.ok (), freshId := "seg-2", now := 7 }
        { isRecording := true, recordings := [], error := "", hasStream := true,
          hasRecorder := true, pendingId := some "seg-1", pendingMeta := none,
          startTs := some 0, chunks := [] } =
      (some "seg-1",
       { isRecording := true, recordings := [], error := "", hasStream := true,
         hasRecorder := true, pendingId := some "seg-1", pendingMeta := none,
         startTs := some 0, chunks := [] }) :=
  (startRecording_idempotent_while_recording
    { isRecording := true, recordings := [], error := "", hasStream := true,
      hasRecorder := true, pendingId := some "seg-1", pendingMeta := none,
      startTs := some 0, chunks := [] }
    { isRecording := false, recordings := [], error := "", hasStream := false,
      hasRecorder := false, pendingId := none, pendingMeta := none,
      startTs := none, chunks := [] }
    (some "seg-1") none none none
    { acquireStream := Except.ok (), startRec := Except.ok (), freshId := "seg-2", now := 7 }
    { acquireStream := Except.ok (), startRec := Except.ok (), freshId := "seg-2", now := 7 }
    rfl rfl (Or.inr rfl) rfl).1

/-- The `onerror` fallback text guarantees a non-empty message. -/
lemma onErrorMsg_ne_empty (evt : Option UseAudioRecorder.ErrEvt) :
    UseAudioRecorder.onErrorMsg evt ≠ "" := by
  rcases evt with _ | ⟨_ | e⟩
  · decide
  · decide
  · dsimp [UseAudioRecorder.onErrorMsg]
    rcases e.message with _ | m
    · decide
    · by_cases hme : m = ""
      · simp only [hme, if_pos]
        decide
      · simp [hme]

/-- C9: a runtime error event from the audio device surfaces a non-empty
error message and forces `isRecording` to `false`; and a failure to acquire
the audio input (whose JS string form is non-empty, as it is for every DOM
exception) makes `startRecording` return `null` with the error message
surfaced and `isRecording` false — the recorder is never left stuck in the
recording state. -/
theorem audio_error_surfaces_and_resets
    (evt : Option UseAudioRecorder.ErrEvt) (s s0 : UseAudioRecorder.AudioRecState)
    (i : Option String) (m : Option UseAudioRecorder.AudioMeta)
    (e : UseAudioRecorder.StartEnv) (err : UseAudioRecorder.ErrVal)
    (h0 : s0.isRecording = false) (hstream : s0.hasStream = false)
    (hacq : e.acquireStream = Except.error err)
    (hmsg : UseAudioRecorder.errToMsg err ≠ "") :
    ((UseAudioRecorder.recorderOnError evt s).error ≠ "" ∧
     (UseAudioRecorder.recorderOnError evt s).isRecording = false) ∧
    (UseAudioRecorder.startRecording true i m e s0 =
       (none, { s0 with error := UseAudioRecorder.errToMsg err, isRecording := false }) ∧
     (UseAudioRecorder.startRecording true i m e s0).2.error ≠ "" ∧
     (UseAudioRecorder.startRecording true i m e s0).2.isRecording = false) := by
  have hrun : UseAudioRecorder.startRecording true i m e s0 =
      (none, { s0 with error := UseAudioRecorder.errToMsg err, isRecording := false }) := by
    unfold UseAudioRecorder.startRecording
    simp [h0, hstream, hacq]
  refine ⟨⟨onErrorMsg_ne_empty evt, rfl⟩, hrun, ?_, ?_⟩ <;> rw [hrun]
  exact hmsg

/-- Witness for C9: a concrete `getUserMedia` rejection with a DOM-exception
string form; the error text is surfaced and the recorder stays idle. -/
theorem audio_error_surfaces_and_resets_witness :
    (UseAudioRecorder.recorderOnError none
        { isRecording := true, recordings := [], error := "", hasStream := true,
          hasRecorder := true, pendingId := some "seg-1", pendingMeta := none,
          startTs := some 0, chunks := [] }).isRecording = false ∧
    (UseAudioRecorder.startRecording true none none
        { acquireStream := Except.error { message := none, str := "NotAllowedError: Permission denied" },
          startRec := Except.ok (), freshId := "u", now := 0 }
        { isRecording := false, recordings := [], error := "", hasStream := false,
          hasRecorder := false, pendingId := none, pendingMeta := none,
          startTs := none, chunks := [] }).2.error ≠ "" :=
  ⟨(audio_error_surfaces_and_resets none
      { isRecording := true, recordings := [], error := "", hasStream := true,
        hasRecorder := true, pendingId := some "seg-1", pendingMeta := none,
        startTs := some 0, chunks := [] }
      { isRecording := false, recordings := [], error := "", hasStream := false,
        hasRecorder := false, pendingId := none, pendingMeta := none,
        startTs := none, chunks := [] }
      none none
      { acquireStream := Except.error { message := none, str := "NotAllowedError: Permission denied" },
        startRec := Except.ok (), freshId := "u", now := 0 }
      { message := none, str := "NotAllowedError: Permission denied" }
      rfl rfl rfl (by decide)).1.2,
   (audio_error_surfaces_and_resets none
      { isRecording := true, recordings := [], error := "", hasStream := true,
        hasRecorder := true, pendingId := some "seg-1", pendingMeta := none,
        startTs := some 0, chunks := [] }
      { isRecording := false, recordings := [], error := "", hasStream := false,
        hasRecorder := false, pendingId := none, pendingMeta := none,
        startTs := none, chunks := [] }
      none none
      { acquireStream := Except.error { message := none, str := "NotAllowedError: Permission denied" },
        startRec := Except.ok (), freshId := "u", now := 0 }
      { message := none, str := "NotAllowedError: Permission denied" }
      rfl rfl rfl (by decide)).2.2.1⟩

/-- The key-set fold only ever appends: the accumulator is a prefix of the
result, so keys keep their first-seen positions. -/
lemma foldl_addKey_append (ks acc : List String) :
    ∃ t, ks.foldl App.addKey acc = acc ++ t := by
  induction ks generalizing acc with
  | nil => exact ⟨[], by simp⟩
  | cons k ks ih =>
    rw [List.foldl_cons]
    by_cases hk : k ∈ acc
    · rw [show App.addKey acc k = acc from by simp [App.addKey, hk]]
      exact ih acc
    · rw [show App.addKey acc k = acc ++ [k] from by simp [App.addKey, hk]]
      rcases ih (acc ++ [k]) with ⟨t, ht⟩
      exact ⟨k :: t, by simpa using ht⟩

/-- Keys already collected survive the key-set fold. -/
lemma mem_foldl_addKey_of_mem (ks acc : List String) (k : String) (hk : k ∈ acc) :
    k ∈ ks.foldl App.addKey acc := by
  rcases foldl_addKey_append ks acc with ⟨t, ht⟩
  rw [ht]
  exact List.mem_append_left t hk

/-- Every key of the scanned list ends up in the key-set fold. -/
lemma mem_foldl_addKey_of_mem_keys (ks acc : List String) (k : String) (hk : k ∈ ks) :
    k ∈ ks.foldl App.addKey acc := by
  induction ks generalizing acc with
  | nil => cases hk
  | cons a as ih =>
    rw [List.foldl_cons]
    rcases List.mem_cons.mp hk with rfl | hk2
    · refine mem_foldl_addKey_of_mem as (App.addKey acc k) k ?_
      by_cases ha : k ∈ acc <;> simp [App.addKey, ha]
    · exact ih (App.addKey acc a) hk2

/-- The key-set fold never introduces a duplicate. -/
lemma nodup_foldl_addKey (ks acc : List String) (h : acc.Nodup) :
    (ks.foldl App.addKey acc).Nodup := by
  induction ks generalizing acc with
  | nil => exact h
  | cons k ks ih =>
    rw [List.foldl_cons]
    refine ih (App.addKey acc k) ?_
    by_cases hk : k ∈ acc
    · simpa [App.addKey, hk] using h
    · rw [show App.addKey acc k = acc ++ [k] from by simp [App.addKey, hk]]
      exact h.append (List.nodup_singleton k) (by simpa [List.disjoint_singleton] using hk)

/-- Row-level version of `foldl_addKey_append`. -/
lemma rowsFold_append (rows : List Row) (acc : List String) :
    ∃ t, rows.foldl (fun a r => (rowKeys r).foldl App.addKey a) acc = acc ++ t := by
  induction rows generalizing acc with
  | nil => exact ⟨[], by simp⟩
  | cons r rs ih =>
    rw [List.foldl_cons]
    rcases foldl_addKey_append (rowKeys r) acc with ⟨t1, ht1⟩
    rw [ht1]
    rcases ih (acc ++ t1) with ⟨t2, ht2⟩
    exact ⟨t1 ++ t2, by rw [ht2, List.append_assoc]⟩

/-- Keys already collected survive the row-level fold. -/
lemma mem_rowsFold_of_mem (rows : List Row) (acc : List String) (k : String) (hk : k ∈ acc) :
    k ∈ rows.foldl (fun a r => (rowKeys r).foldl App.addKey a) acc := by
  rcases rowsFold_append rows acc with ⟨t, ht⟩
  rw [ht]
  exact List.mem_append_left t hk

/-- Every key of every row ends up in the row-level fold. -/
lemma mem_rowsFold (rows : List Row) (acc : List String) (r : Row) (k : String)
    (hr : r ∈ rows) (hk : k ∈ rowKeys r) :
    k ∈ rows.foldl (fun a r => (rowKeys r).foldl App.addKey a) acc := by
  induction rows generalizing acc with
  | nil => cases hr
  | cons r0 rs ih =>
    rw [List.foldl_cons]
    rcases List.mem_cons.mp hr with rfl | hr2
    · exact mem_rowsFold_of_mem rs _ k (mem_foldl_addKey_of_mem_keys (rowKeys r) acc k hk)
    · exact ih _ hr2

/-- The row-level fold preserves duplicate-freedom. -/
lemma nodup_rowsFold (rows : List Row) (acc : List String) (h : acc.Nodup) :
    (rows.foldl (fun a r => (rowKeys r).foldl App.addKey a) acc).Nodup := by
  induction rows generalizing acc with
  | nil => exact h
  | cons r rs ih =>
    rw [List.foldl_cons]
    exact ih _ (nodup_foldl_addKey (rowKeys r) acc h)

/-- Counterexample to C5: on two rows `{a: 1}` and `{a: 1, b: 2}`, the CSV
encoder in `GazeRecorder.jsx` emits header line `a` (the keys of the first
row only) and silently drops the `b` column, while the union of keys in
first-seen order is `a,b` — as emitted by the application-level encoder. -/
theorem downloadCsv_first_row_header_counterexample :
    GazeRecorder.downloadCsv [[("a", some "1")], [("a", some "1"), ("b", some "2")]] =
      some "a\n1\n1" ∧
    String.mk ("a\n1\n1".data.takeWhile (fun c => c ≠ '\n')) = "a" ∧
    App.firstSeenKeys [[("a", some "1")], [("a", some "1"), ("b", some "2")]] = ["a", "b"] ∧
    String.intercalate ","
      (App.firstSeenKeys [[("a", some "1")], [("a", some "1"), ("b", some "2")]]) = "a,b" ∧
    ("a" : String) ≠ "a,b" ∧
    App.downloadCsv [[("a", some "1")], [("a", some "1"), ("b", some "2")]] =
      some "a,b\n1,\n1,2" := by
  refine ⟨by decide, by decide, by decide, by decide, by decide, by decide⟩

/-- C5 as amended: the application-level encoder (used for the psychometric
and demographics exports) emits as header the union of the keys of all rows
in first-seen order — complete, duplicate-free, and append-monotone — with
each data line listing, for exactly those keys in that order, the values
passed through that component's own `csvEscape` copy; the encoder in
`GazeRecorder.jsx` (used for the gaze-sample and audio-log exports) instead
uses only the first row's keys, its data lines going through its own broken
`csvEscape` copy. -/
theorem downloadCsv_header_shapes
    (rows : List Row) (hne : rows ≠ []) (r0 : Row) (rest : List Row) :
    App.downloadCsv rows =
      some (String.intercalate "\n"
        (String.intercalate "," (App.firstSeenKeys rows) ::
          rows.map (fun r => String.intercalate ","
            ((App.firstSeenKeys rows).map (fun k => App.csvEscape (rowGet r k)))))) ∧
    (∀ r ∈ rows, ∀ k ∈ rowKeys r, k ∈ App.firstSeenKeys rows) ∧
    (App.firstSeenKeys rows).Nodup ∧
    (∀ rows2 : List Row, ∃ t,
      App.firstSeenKeys (rows ++ rows2) = App.firstSeenKeys rows ++ t) ∧
    GazeRecorder.downloadCsv (r0 :: rest) =
      some (String.intercalate "\n"
        (String.intercalate "," (rowKeys r0) ::
          (r0 :: rest).map (fun r => String.intercalate ","
            ((rowKeys r0).map (fun k => GazeRecorder.csvEscape (rowGet r k)))))) := by
  refine ⟨?_, ?_, ?_, ?_, rfl⟩
  · cases rows with
    | nil => exact absurd rfl hne
    | cons r rs => rfl
  · intro r hr k hk
    exact mem_rowsFold rows [] r k hr hk
  · exact nodup_rowsFold rows [] List.nodup_nil
  · intro rows2
    unfold App.firstSeenKeys
    rw [List.foldl_append]
    exact rowsFold_append rows2 _

/-- Witness for C5 (amended): the union-header encoding evaluated on the
concrete rows `{a: 1}` and `{a: 1, b: 2}`. -/
theorem downloadCsv_header_shapes_witness :
    App.downloadCsv [[("a", some "1")], [("a", some "1"), ("b", some "2")]] =
      some (String.intercalate "\n"
        (String.intercalate ","
            (App.firstSeenKeys [[("a", some "1")], [("a", some "1"), ("b", some "2")]]) ::
          ([[("a", some "1")], [("a", some "1"), ("b", some "2")]] : List Row).map
            (fun r => String.intercalate ","
              ((App.firstSeenKeys
                  [[("a", some "1")], [("a", some "1"), ("b", some "2")]]).map
                (fun k => App.csvEscape (rowGet r k)))))) :=
  (downloadCsv_header_shapes
    [[("a", some "1")], [("a", some "1"), ("b", some "2")]] (by decide) [] []).1

end GazeRec
